import Mathlib

/-!
Shallow embedding of the ComfyUI-nhknodes repository (a catalog of plugin
nodes for a node-based image-workflow host).  Each Python node method that
the specification's claims mention is translated into an executable Lean
definition; mutable per-label counter dictionaries become explicit
association lists threaded through the functions, filesystem and host
interactions become explicit inputs, and fallible operations return
`Except`/`Option`.
-/

/-! ## Python string primitives

The repository manipulates plain Python `str` values.  Lean's built-in
`String` functions (`toLower`, `trim`, ...) do not reduce inside the kernel,
so the models below work on the underlying `List Char` and wrap the result
back with `String.mk`.  All modelled strings in the claims are ASCII; the
models implement the ASCII fragment of the corresponding Python behaviour
and say so where Python is Unicode-aware.
-/

/-- ASCII fragment of Python `str.lower`: lowercase each character. -/
def pyLower (s : String) : String := String.mk (s.toList.map Char.toLower)

/-- ASCII fragment of Python `str.upper`: uppercase each character. -/
def pyUpper (s : String) : String := String.mk (s.toList.map Char.toUpper)

/-- ASCII whitespace test used by the model of Python `str.strip`. -/
def pyIsSpace (c : Char) : Bool :=
  c = ' ' || c = '\t' || c = '\n' || c = '\r' || c = '\x0b' || c = '\x0c'

/-- ASCII fragment of Python `str.strip()`: drop whitespace on both ends. -/
def pyStrip (s : String) : String :=
  String.mk (((s.toList.dropWhile pyIsSpace).reverse.dropWhile pyIsSpace).reverse)

/-- Core of Python `str.replace`: scan left to right, replacing each
non-overlapping occurrence of `pat`; replacements are not rescanned.  The
fuel argument only bounds the number of scanning steps and is instantiated
with the length of the subject string, which always suffices because every
step consumes at least one character of the subject. -/
def pyReplaceAux (pat repl : List Char) : Nat → List Char → List Char
  | 0, s => s
  | _ + 1, [] => []
  | fuel + 1, c :: cs =>
    if pat.isPrefixOf (c :: cs) then
      repl ++ pyReplaceAux pat repl fuel ((c :: cs).drop pat.length)
    else
      c :: pyReplaceAux pat repl fuel cs

/-- Python `s.replace(pat, repl)` for the non-empty patterns used in this
repository (`"[a]"`, ..., `"[h]"`, `"%batch_num%"`). -/
def pyReplace (s pat repl : String) : String :=
  String.mk (pyReplaceAux pat.toList repl.toList s.toList.length s.toList)

/-- Code-point comparison of two character lists, mirroring Python's
lexicographic `<=` on `str`. -/
def charListLe : List Char → List Char → Bool
  | [], _ => true
  | _ :: _, [] => false
  | a :: as, b :: bs => if a = b then charListLe as bs else decide (a.toNat < b.toNat)

/-- Code-point `<=` on strings, as used by Python `list.sort()` on paths. -/
def strLe (a b : String) : Bool := charListLe a.toList b.toList

/-- Insert a string into a `strLe`-sorted list. -/
def insertStr (x : String) : List String → List String
  | [] => [x]
  | y :: ys => if strLe x y then x :: y :: ys else y :: insertStr x ys

/-- Model of Python `list.sort()` on a list of strings (insertion sort;
strings compare by code points, so equal keys are identical strings and
stability is immaterial). -/
def pySorted : List String → List String
  | [] => []
  | x :: xs => insertStr x (pySorted xs)

/-- Python list indexing `l[i]`: negative indices count from the end, and
an index out of range raises `IndexError`, modelled as `none`. -/
def pyGet {α : Type} (l : List α) (i : Int) : Option α :=
  let j : Int := if i < 0 then i + l.length else i
  if 0 ≤ j then l.get? j.toNat else none

/-- Digit-sequence parser for Python `int(str)`: ASCII digits with single
underscores allowed between digits (`"1_0"` parses, `"_1"`, `"1_"`,
`"1__0"` do not).  `lastWasDigit` records whether the previous character
was a digit. -/
def pyDigitsAux (lastWasDigit : Bool) (acc : Nat) : List Char → Option Nat
  | [] => if lastWasDigit then some acc else none
  | c :: cs =>
    if c.isDigit then pyDigitsAux true (acc * 10 + (c.toNat - ('0').toNat)) cs
    else if c = '_' && lastWasDigit then pyDigitsAux false acc cs
    else none

/-- ASCII fragment of Python `int(str)`: optional surrounding whitespace,
optional sign, then a digit sequence; `ValueError` is modelled as `none`. -/
def pyInt (s : String) : Option Int :=
  match (pyStrip s).toList with
  | '+' :: rest => (pyDigitsAux false 0 rest).map Int.ofNat
  | '-' :: rest => (pyDigitsAux false 0 rest).map (fun n => -(n : Int))
  | rest => (pyDigitsAux false 0 rest).map Int.ofNat

/-- Python `os.path.basename` for forward-slash paths: the part after the
last separator. -/
def pyBasename (p : String) : String :=
  String.mk ((p.toList.reverse.takeWhile (fun c => c ≠ '/')).reverse)

/-- Zero-padded decimal of width five, Python's `f"{counter:05}"` for a
non-negative counter. -/
def pad5 (n : Nat) : String :=
  String.mk (List.replicate (5 - (toString n).length) '0') ++ toString n

/-- Model of Python's seeded module-level RNG as used by the loaders:
`random.seed(seed)` followed by `random.randint(0, n - 1)`.  The Python
contract guarantees the drawn value is a pure function of the seed lying
in `[0, n - 1]`; the model realises that contract with a concrete pure
function (the precise distribution is irrelevant to every claim). -/
def pyRandint0 (seedVal : Int) (n : Nat) : Int := seedVal % (n : Int)

/-! ## Counter dictionaries

`LoadImageSeries._counters` and `Load2x2GridSeries._counters` are Python
dicts from label strings to ints, modelled as insertion-ordered
association lists. -/

/-- The stored value at a key, if any (`d[k]` guarded by `k in d`). -/
def dictLookup : List (String × Int) → String → Option Int
  | [], _ => none
  | p :: rest, k => if p.1 = k then some p.2 else dictLookup rest k

/-- Python `d.get(k, dflt)`. -/
def dictGet (d : List (String × Int)) (k : String) (dflt : Int) : Int :=
  (dictLookup d k).getD dflt

/-- Python `d[k] = v`: overwrite in place, or append a new binding. -/
def dictSet : List (String × Int) → String → Int → List (String × Int)
  | [], k, v => [(k, v)]
  | p :: rest, k, v => if p.1 = k then (k, v) :: rest else p :: dictSet rest k v

theorem dictLookup_dictSet_self (d : List (String × Int)) (k : String) (v : Int) :
    dictLookup (dictSet d k v) k = some v := by
  induction d with
  | nil => simp [dictSet, dictLookup]
  | cons p rest ih =>
    by_cases h : p.1 = k
    · simp [dictSet, dictLookup, h]
    · simp [dictSet, dictLookup, h, ih]

theorem dictLookup_dictSet_ne (d : List (String × Int)) (k k' : String) (v : Int)
    (h : k' ≠ k) : dictLookup (dictSet d k v) k' = dictLookup d k' := by
  induction d with
  | nil => simp [dictSet, dictLookup, Ne.symm h]
  | cons p rest ih =>
    by_cases hp : p.1 = k
    · subst hp
      simp [dictSet, dictLookup, Ne.symm h]
    · simp [dictSet, dictLookup, hp, ih]

/-! ## Replacement lemmas -/

theorem pyReplaceAux_no_occurrence (pat repl : List Char) :
    ∀ (fuel : Nat) (s : List Char), ¬ pat <:+: s → pyReplaceAux pat repl fuel s = s := by
  intro fuel
  induction fuel with
  | zero => intro s _; rfl
  | succ n ih =>
    intro s hs
    cases s with
    | nil => rfl
    | cons c cs =>
      by_cases hp : pat.isPrefixOf (c :: cs) = true
      · exact absurd (( List.isPrefixOf_iff_prefix.mp hp).isInfix) hs
      · simp only [pyReplaceAux, hp, if_false, Bool.false_eq_true]
        exact congrArg (c :: ·) (ih cs (fun h => hs (List.infix_cons h)))

theorem pyReplace_no_occurrence (s pat repl : String)
    (h : ¬ pat.toList <:+: s.toList) : pyReplace s pat repl = s := by
  unfold pyReplace
  rw [pyReplaceAux_no_occurrence pat.toList repl.toList s.toList.length s.toList h]
  rfl

theorem pyReplace_empty (pat repl : String) : pyReplace "" pat repl = "" := rfl

/-! ## TextTemplate (src/text_template.py) -/

namespace TextTemplate

/-- `TextTemplate.process_template`: empty template short-circuits to `""`;
otherwise the placeholders `[a] [b] [c] [d]` are substituted by four
successive `str.replace` calls. -/
def process_template (template : String) (a b c d : String) : String :=
  if template = "" then ""
  else pyReplace (pyReplace (pyReplace (pyReplace template "[a]" a) "[b]" b) "[c]" c) "[d]" d

end TextTemplate

/-! ## TextTemplateExtended (src/text_template_extended.py) -/

namespace TextTemplateExtended

/-- `TextTemplateExtended.process_template`: empty template short-circuits
to `""`; otherwise a loop over the letter/value pairs `a` through `h`
substitutes `[a] ... [h]` by successive `str.replace` calls. -/
def process_template (template : String) (a b c d e f g h : String) : String :=
  if template = "" then ""
  else
    List.foldl (fun result lv => pyReplace result (String.mk ['[', lv.1, ']']) lv.2)
      template
      [('a', a), ('b', b), ('c', c), ('d', d), ('e', e), ('f', f), ('g', g), ('h', h)]

end TextTemplateExtended

/-! ## ConditionalRouter (src/conditional_router.py) -/

namespace ConditionalRouter

/-- `ConditionalRouter.route`: return the selected input plus an info
string naming the path taken. -/
def route {α : Type} (condition : Bool) (pass_input fail_input : α) : α × String :=
  if condition then (pass_input, "Using pass_input")
  else (fail_input, "Using fail_input")

/-- `ConditionalRouter.check_lazy_status`: name the single lazy input the
host must evaluate for the coming `route` call. -/
def check_lazy_status (condition : Bool) : List String :=
  if condition then ["pass_input"] else ["fail_input"]

end ConditionalRouter

/-! ## Bookmark (src/bookmark.py) -/

namespace Bookmark

/-- `Bookmark.RETURN_TYPES` is the empty tuple of output types. -/
def RETURN_TYPES : List String := []

/-- `Bookmark.bookmark`: the execution entry point does nothing and
returns the empty tuple; the inputs are ignored, so they are modelled at
arbitrary types (in particular `zoom`, a host float, is never inspected). -/
def bookmark {K Z A : Type} (shortcut_key : K) (zoom : Z) (anchor : A) : Unit := ()

end Bookmark

/-- C2: for every condition and pair of inputs, `route` returns
`pass_input` when the condition is true and `fail_input` when it is false,
and `check_lazy_status` names exactly the input `route` will return, so
the unused branch is never requested. -/
theorem C2_route_matches_lazy_status {α : Type} (condition : Bool) (p f : α) :
    ConditionalRouter.route condition p f =
      (if condition then p else f,
        if condition then "Using pass_input" else "Using fail_input") ∧
    ConditionalRouter.check_lazy_status condition =
      [if condition then "pass_input" else "fail_input"] := by
  cases condition <;>
    simp [ConditionalRouter.route, ConditionalRouter.check_lazy_status]

/-- C7: `Bookmark.bookmark` performs no execution-time work: for every
combination of inputs it returns the empty tuple, and the node declares an
empty `RETURN_TYPES`. -/
theorem C7_bookmark_is_no_op {K Z A : Type} (k : K) (z : Z) (a : A) :
    Bookmark.bookmark k z a = () ∧ Bookmark.RETURN_TYPES = [] :=
  ⟨rfl, rfl⟩

/-- C3 counterexample: the claim says no placeholder token substituted by
one template variant is substituted by the other; but the token `[a]` is
recognised and substituted by both variants (on template `"[a]"` with
`a = "x"` both produce `"x"`). -/
theorem C3_shared_token_counterexample :
    TextTemplate.process_template "[a]" "x" "" "" "" = "x" ∧
    TextTemplateExtended.process_template "[a]" "x" "" "" "" "" "" "" "" = "x" ∧
    ("x" : String) ≠ "[a]" := by decide

/-- C3 amended: the two placeholder sets are nested rather than disjoint.
First, the extended substitution factors through the basic one: for every
template and values, `TextTemplateExtended.process_template` equals
`TextTemplate.process_template` followed by the `[e] [f] [g] [h]`
replacements — so the shared tokens `[a]`-`[d]` are substituted
identically by both variants.  Second, the basic variant recognises none
of the extended-only tokens: a template consisting of `[e]`, `[f]`, `[g]`
or `[h]` comes back unchanged for all values.  Third, the extended
variant does substitute each of those four tokens.  Hence only templates
using `[e]`-`[h]` are left (partially) unprocessed by the basic
variant. -/
theorem C3_amended_nested_placeholder_sets :
    (∀ t a b c d e f g h : String,
      TextTemplateExtended.process_template t a b c d e f g h =
        pyReplace (pyReplace (pyReplace (pyReplace
          (TextTemplate.process_template t a b c d) "[e]" e) "[f]" f) "[g]" g) "[h]" h) ∧
    (∀ a b c d : String,
      TextTemplate.process_template "[e]" a b c d = "[e]" ∧
      TextTemplate.process_template "[f]" a b c d = "[f]" ∧
      TextTemplate.process_template "[g]" a b c d = "[g]" ∧
      TextTemplate.process_template "[h]" a b c d = "[h]") ∧
    (TextTemplateExtended.process_template "[e]" "" "" "" "" "owl" "" "" "" = "owl" ∧
      TextTemplateExtended.process_template "[f]" "" "" "" "" "" "fox" "" "" = "fox" ∧
      TextTemplateExtended.process_template "[g]" "" "" "" "" "" "" "gnu" "" = "gnu" ∧
      TextTemplateExtended.process_template "[h]" "" "" "" "" "" "" "" "hen" = "hen") := by
  refine ⟨?_, ?_, by decide⟩
  · intro t a b c d e f g h
    by_cases ht : t = ""
    · subst ht
      simp [TextTemplate.process_template, TextTemplateExtended.process_template,
        pyReplace_empty]
    · simp only [TextTemplateExtended.process_template, TextTemplate.process_template,
        ht, if_false, List.foldl]
  · intro a b c d
    refine ⟨?_, ?_, ?_, ?_⟩
    · simp only [TextTemplate.process_template]
      rw [if_neg (by decide : ¬ ("[e]" : String) = "")]
      rw [pyReplace_no_occurrence "[e]" "[a]" a (by decide)]
      rw [pyReplace_no_occurrence "[e]" "[b]" b (by decide)]
      rw [pyReplace_no_occurrence "[e]" "[c]" c (by decide)]
      rw [pyReplace_no_occurrence "[e]" "[d]" d (by decide)]
    · simp only [TextTemplate.process_template]
      rw [if_neg (by decide : ¬ ("[f]" : String) = "")]
      rw [pyReplace_no_occurrence "[f]" "[a]" a (by decide)]
      rw [pyReplace_no_occurrence "[f]" "[b]" b (by decide)]
      rw [pyReplace_no_occurrence "[f]" "[c]" c (by decide)]
      rw [pyReplace_no_occurrence "[f]" "[d]" d (by decide)]
    · simp only [TextTemplate.process_template]
      rw [if_neg (by decide : ¬ ("[g]" : String) = "")]
      rw [pyReplace_no_occurrence "[g]" "[a]" a (by decide)]
      rw [pyReplace_no_occurrence "[g]" "[b]" b (by decide)]
      rw [pyReplace_no_occurrence "[g]" "[c]" c (by decide)]
      rw [pyReplace_no_occurrence "[g]" "[d]" d (by decide)]
    · simp only [TextTemplate.process_template]
      rw [if_neg (by decide : ¬ ("[h]" : String) = "")]
      rw [pyReplace_no_occurrence "[h]" "[a]" a (by decide)]
      rw [pyReplace_no_occurrence "[h]" "[b]" b (by decide)]
      rw [pyReplace_no_occurrence "[h]" "[c]" c (by decide)]
      rw [pyReplace_no_occurrence "[h]" "[d]" d (by decide)]

/-- C10 counterexample: the claim restricts only the template, but a value
can inject an extended placeholder: with template `"[a]"` (which contains
none of `[e] [f] [g] [h]`) and `a = "[e]"`, the basic variant yields
`"[e]"` while the extended variant (with empty `e f g h`) strips it to
`""`. -/
theorem C10_value_injection_counterexample :
    ¬ ("[e]".toList <:+: "[a]".toList) ∧ ¬ ("[f]".toList <:+: "[a]".toList) ∧
    ¬ ("[g]".toList <:+: "[a]".toList) ∧ ¬ ("[h]".toList <:+: "[a]".toList) ∧
    TextTemplate.process_template "[a]" "[e]" "" "" "" = "[e]" ∧
    TextTemplateExtended.process_template "[a]" "[e]" "" "" "" "" "" "" "" = "" ∧
    ("[e]" : String) ≠ "" := by decide

/-- C10 amended: the two variants agree whenever the result of the basic
substitution contains none of the substrings `[e]`, `[f]`, `[g]`, `[h]`
(constraining the template alone is not enough, because substituted values
can introduce those tokens): then
`TextTemplateExtended.process_template template a b c d "" "" "" ""`
equals `TextTemplate.process_template template a b c d`. -/
theorem C10_amended_agreement_on_clean_results (t a b c d : String)
    (he : ¬ "[e]".toList <:+: (TextTemplate.process_template t a b c d).toList)
    (hf : ¬ "[f]".toList <:+: (TextTemplate.process_template t a b c d).toList)
    (hg : ¬ "[g]".toList <:+: (TextTemplate.process_template t a b c d).toList)
    (hh : ¬ "[h]".toList <:+: (TextTemplate.process_template t a b c d).toList) :
    TextTemplateExtended.process_template t a b c d "" "" "" "" =
      TextTemplate.process_template t a b c d := by
  by_cases ht : t = ""
  · simp [TextTemplate.process_template, TextTemplateExtended.process_template, ht]
  · have step : TextTemplateExtended.process_template t a b c d "" "" "" "" =
        pyReplace (pyReplace (pyReplace (pyReplace
          (TextTemplate.process_template t a b c d) "[e]" "") "[f]" "") "[g]" "") "[h]" "" := by
      simp only [TextTemplateExtended.process_template, TextTemplate.process_template,
        ht, if_false, List.foldl]
    rw [step, pyReplace_no_occurrence _ _ _ he, pyReplace_no_occurrence _ _ _ hf,
      pyReplace_no_occurrence _ _ _ hg, pyReplace_no_occurrence _ _ _ hh]

/-- C10 witness: the amended agreement at a concrete clean instance. -/
theorem C10_amended_agreement_witness :
    TextTemplateExtended.process_template "The [a] and [b]" "cat" "dog" "" "" "" "" "" "" =
      TextTemplate.process_template "The [a] and [b]" "cat" "dog" "" "" :=
  C10_amended_agreement_on_clean_results "The [a] and [b]" "cat" "dog" "" ""
    (by decide) (by decide) (by decide) (by decide)

/-- Decidable equality for `Except`, needed so concrete loader results can
be evaluated by `decide`. -/
instance exceptDecEq {ε α : Type} [DecidableEq ε] [DecidableEq α] :
    DecidableEq (Except ε α) := fun x y =>
  match x, y with
  | .ok a, .ok b =>
    if h : a = b then isTrue (congrArg Except.ok h)
    else isFalse (fun hc => h (Except.ok.inj hc))
  | .error e, .error f =>
    if h : e = f then isTrue (congrArg Except.error h)
    else isFalse (fun hc => h (Except.error.inj hc))
  | .ok _, .error _ => isFalse (fun hc => Except.noConfusion hc)
  | .error _, .ok _ => isFalse (fun hc => Except.noConfusion hc)

/-! ## LoadImageSeries (src/load_image_series.py) -/

namespace LoadImageSeries

/-- The node's `mode` dropdown offers exactly `"single_image"` and
`"random"`. -/
inductive Mode where
  | single_image
  | random
deriving DecidableEq

/-- `allowed_extensions` from `load_image`. -/
def allowed_extensions : List String :=
  [".jpeg", ".jpg", ".png", ".tiff", ".gif", ".bmp", ".webp"]

/-- `file_name.lower().endswith(allowed_extensions)`. -/
def isAllowedImage (file_name : String) : Bool :=
  allowed_extensions.any (fun e => e.toList.isSuffixOf (pyLower file_name).toList)

/-- The sorted list of matching image paths built by the glob loop.  The
raw glob result is an input (it is filesystem state); the loop keeps the
names with an allowed image extension and the list is then sorted.
`os.path.abspath` is modelled as the identity: it only changes the
spelling of the stored path, which no claim inspects. -/
def matchedImages (globMatches : List String) : List String :=
  pySorted (globMatches.filter isAllowedImage)

/-- The IMAGE value returned by the node, kept symbolic: either the
`torch.zeros(1, 512, 512, 3)` placeholder or the tensor decoded from a
file (`Image.open` → EXIF transpose → RGB convert → `pil2tensor`). -/
inductive ImgOut where
  | zeros (b h w c : Nat)
  | file (path : String)
deriving DecidableEq

/-- Result of one invocation: the `_counters` dictionary after the call
plus either the returned 4-tuple `(image, filename, current_index,
total_images)` or an escaped `IndexError` (`Except.error`, raised by
`image_paths[current_index]` and caught nowhere). -/
structure Result where
  counters : List (String × Int)
  out : Except Unit (ImgOut × String × Int × Int)
deriving DecidableEq

/-- `LoadImageSeries.load_image`.  Filesystem state enters as
`pathExists` (`os.path.exists(path)`) and `globMatches` (the raw
`glob.glob` result); `loadOk p` says whether opening and decoding the
image at `p` succeeds (the `except` clause turns that failure into a
zeros tuple).  The mutable class attribute `_counters` is threaded
explicitly. -/
def load_image (counters : List (String × Int)) (mode : Mode)
    (pathExists : Bool) (globMatches : List String)
    (index seed : Int) (label : String) (reset : Bool)
    (loadOk : String → Bool) : Result :=
  let counters1 := if reset then dictSet counters label 0 else counters
  if pathExists = false then
    ⟨counters1, .ok (.zeros 1 512 512 3, "", 0, 0)⟩
  else
    let image_paths := matchedImages globMatches
    if image_paths = [] then
      ⟨counters1, .ok (.zeros 1 512 512 3, "", 0, 0)⟩
    else
      let total_images : Int := image_paths.length
      match mode with
      | .single_image =>
        let ci0 := dictGet counters1 label index
        let current_index := if ci0 ≥ total_images then 0 else ci0
        match pyGet image_paths current_index with
        | none => ⟨counters1, .error ()⟩
        | some selected_path =>
          let counters2 := dictSet counters1 label ((current_index + 1) % total_images)
          if loadOk selected_path then
            ⟨counters2, .ok (.file selected_path, pyBasename selected_path,
              current_index, total_images)⟩
          else
            ⟨counters2, .ok (.zeros 1 512 512 3, "", 0, total_images)⟩
      | .random =>
        let current_index := pyRandint0 seed image_paths.length
        match pyGet image_paths current_index with
        | none => ⟨counters1, .error ()⟩
        | some selected_path =>
          if loadOk selected_path then
            ⟨counters1, .ok (.file selected_path, pyBasename selected_path,
              current_index, total_images)⟩
          else
            ⟨counters1, .ok (.zeros 1 512 512 3, "", 0, total_images)⟩

end LoadImageSeries

/-! ## Load2x2GridSeries (src/load_2x2_grid_series.py) -/

namespace Load2x2GridSeries

/-- `position_names` from `load_image`. -/
def position_names : List String :=
  ["upper-left", "upper-right", "bottom-left", "bottom-right"]

/-- The IMAGE value returned: the zeros placeholder, or the crop of the
image at `path` by the computed crop box. -/
inductive ImgOut where
  | zeros (b h w c : Nat)
  | cell (path : String) (left top right bottom : Int)
deriving DecidableEq

/-- Updated `_counters` plus the returned 6-tuple `(image, filename,
current_index, total_images, grid_position, position_name)`, or an
escaped `IndexError`. -/
structure Result where
  counters : List (String × Int)
  out : Except Unit (ImgOut × String × Int × Int × Int × String)
deriving DecidableEq

/-- `Load2x2GridSeries.load_image`.  Same conventions as
`LoadImageSeries.load_image`; additionally `dims p` is the PIL size
`(width, height)` of the decoded image at `p`.  Note the source updates
the counter *before* indexing `image_paths`, so an escaped `IndexError`
leaves the incremented counter behind.  Python's floor division `//` and
`%` coincide with Lean's Euclidean `/` and `%` on `Int` because every
divisor here (`4`, `2`) is positive. -/
def load_image (counters : List (String × Int)) (mode : LoadImageSeries.Mode)
    (pathExists : Bool) (globMatches : List String)
    (index seed : Int) (label : String) (reset : Bool) (separator_width : Int)
    (loadOk : String → Bool) (dims : String → Nat × Nat) : Result :=
  let counters1 := if reset then dictSet counters label 0 else counters
  if pathExists = false then
    ⟨counters1, .ok (.zeros 1 512 512 3, "", 0, 0, 0, "none")⟩
  else
    let image_paths := LoadImageSeries.matchedImages globMatches
    if image_paths = [] then
      ⟨counters1, .ok (.zeros 1 512 512 3, "", 0, 0, 0, "none")⟩
    else
      let total_grid_cells : Int := (image_paths.length : Int) * 4
      let cc :=
        match mode with
        | .single_image =>
          let ci0 := dictGet counters1 label index
          let ci := if ci0 ≥ total_grid_cells then 0 else ci0
          (ci, dictSet counters1 label ((ci + 1) % total_grid_cells))
        | .random => (pyRandint0 seed (image_paths.length * 4), counters1)
      let current_index := cc.1
      let counters2 := cc.2
      let file_index := current_index / 4
      let grid_position := current_index % 4
      let position_name := position_names.getD grid_position.toNat ""
      match pyGet image_paths file_index with
      | none => ⟨counters2, .error ()⟩
      | some selected_path =>
        if loadOk selected_path then
          let wImg : Int := (dims selected_path).1
          let hImg : Int := (dims selected_path).2
          let half_width := wImg / 2
          let half_height := hImg / 2
          let h_offset := separator_width / 2 + separator_width % 2
          let v_offset := separator_width / 2 + separator_width % 2
          let box :=
            if grid_position = 0 then
              (0, 0, half_width - h_offset, half_height - v_offset)
            else if grid_position = 1 then
              (half_width + (separator_width - h_offset), 0, wImg, half_height - v_offset)
            else if grid_position = 2 then
              (0, half_height + (separator_width - v_offset), half_width - h_offset, hImg)
            else
              (half_width + (separator_width - h_offset),
                half_height + (separator_width - v_offset), wImg, hImg)
          ⟨counters2, .ok (.cell selected_path box.1 box.2.1 box.2.2.1 box.2.2.2,
            pyBasename selected_path, current_index, total_grid_cells,
            grid_position, position_name)⟩
        else
          ⟨counters2, .ok (.zeros 1 512 512 3, "", 0, total_grid_cells, 0, "error")⟩

end Load2x2GridSeries

/-- C8: with `reset = False`, a missing path or a glob yielding no file
with an allowed image extension makes `LoadImageSeries.load_image` return
the `1x512x512x3` zeros tensor, empty filename, `current_index 0` and
`total_images 0`, with `_counters` left untouched and no error raised. -/
theorem C8_missing_path_or_no_match_is_benign (counters : List (String × Int))
    (mode : LoadImageSeries.Mode) (pathExists : Bool) (globMatches : List String)
    (index seed : Int) (label : String) (loadOk : String → Bool)
    (h : pathExists = false ∨ LoadImageSeries.matchedImages globMatches = []) :
    LoadImageSeries.load_image counters mode pathExists globMatches
        index seed label false loadOk =
      ⟨counters, .ok (.zeros 1 512 512 3, "", 0, 0)⟩ := by
  rcases h with h | h
  · simp [LoadImageSeries.load_image, h]
  · cases pathExists
    · simp [LoadImageSeries.load_image]
    · simp [LoadImageSeries.load_image, h]

/-- C8 witness: a missing directory, and separately a glob list whose only
entry has no allowed image extension, both with a stored counter that must
survive. -/
theorem C8_missing_path_witness :
    LoadImageSeries.load_image [("Series001", 3)] .single_image false ["x.png"]
        0 0 "Series001" false (fun _ => true) =
      ⟨[("Series001", 3)], .ok (.zeros 1 512 512 3, "", 0, 0)⟩ ∧
    LoadImageSeries.load_image [("Series001", 3)] .single_image true ["notes.txt"]
        0 0 "Series001" false (fun _ => true) =
      ⟨[("Series001", 3)], .ok (.zeros 1 512 512 3, "", 0, 0)⟩ :=
  ⟨C8_missing_path_or_no_match_is_benign [("Series001", 3)] .single_image false
      ["x.png"] 0 0 "Series001" (fun _ => true) (Or.inl rfl),
    C8_missing_path_or_no_match_is_benign [("Series001", 3)] .single_image true
      ["notes.txt"] 0 0 "Series001" (fun _ => true) (Or.inr (by decide))⟩

/-- C4: an invocation of `LoadImageSeries.load_image` with label `L`
leaves the stored counter of every other label unchanged (write frame),
and its returned tuple depends on the counter dictionary only through the
entry for `L` (read frame). -/
theorem C4_label_isolation (counters countersB : List (String × Int))
    (mode : LoadImageSeries.Mode) (pathExists : Bool) (globMatches : List String)
    (index seed : Int) (label : String) (reset : Bool) (loadOk : String → Bool)
    (label2 : String) (hne : label2 ≠ label)
    (hagree : dictLookup countersB label = dictLookup counters label) :
    dictLookup (LoadImageSeries.load_image counters mode pathExists globMatches
        index seed label reset loadOk).counters label2 = dictLookup counters label2 ∧
    (LoadImageSeries.load_image countersB mode pathExists globMatches
        index seed label reset loadOk).out =
      (LoadImageSeries.load_image counters mode pathExists globMatches
        index seed label reset loadOk).out := by
  have h1 : dictLookup (if reset then dictSet counters label 0 else counters) label2
      = dictLookup counters label2 := by
    cases reset <;> simp [dictLookup_dictSet_ne _ _ _ _ hne]
  have h1B : ∀ v : Int,
      dictLookup (dictSet (if reset then dictSet counters label 0 else counters) label v)
        label2 = dictLookup counters label2 := by
    intro v
    rw [dictLookup_dictSet_ne _ _ _ _ hne]
    exact h1
  have hg : dictGet (if reset then dictSet countersB label 0 else countersB) label index
      = dictGet (if reset then dictSet counters label 0 else counters) label index := by
    cases reset <;> simp [dictGet, dictLookup_dictSet_self, hagree]
  cases pathExists
  · exact ⟨by simpa [LoadImageSeries.load_image] using h1,
      by simp [LoadImageSeries.load_image]⟩
  · by_cases hmp : LoadImageSeries.matchedImages globMatches = []
    · exact ⟨by simpa [LoadImageSeries.load_image, hmp] using h1,
        by simp [LoadImageSeries.load_image, hmp]⟩
    · cases mode with
      | single_image =>
        constructor
        · simp only [LoadImageSeries.load_image, Bool.true_eq_false, if_false, hmp]
          cases hpg : pyGet (LoadImageSeries.matchedImages globMatches)
              (if dictGet (if reset then dictSet counters label 0 else counters) label index ≥
                  ((LoadImageSeries.matchedImages globMatches).length : Int)
                then 0
                else dictGet (if reset then dictSet counters label 0 else counters) label index) with
          | none => simpa [hpg] using h1
          | some sp =>
            cases hl : loadOk sp <;> simpa [hpg, hl] using h1B _
        · simp only [LoadImageSeries.load_image, Bool.true_eq_false, if_false, hmp, hg]
          cases hpg : pyGet (LoadImageSeries.matchedImages globMatches)
              (if dictGet (if reset then dictSet counters label 0 else counters) label index ≥
                  ((LoadImageSeries.matchedImages globMatches).length : Int)
                then 0
                else dictGet (if reset then dictSet counters label 0 else counters) label index) with
          | none => simp only [hpg]
          | some sp =>
            simp only [hpg]
            cases loadOk sp <;> rfl
      | random =>
        constructor
        · simp only [LoadImageSeries.load_image, Bool.true_eq_false, if_false, hmp]
          cases hpg : pyGet (LoadImageSeries.matchedImages globMatches)
              (pyRandint0 seed (LoadImageSeries.matchedImages globMatches).length) with
          | none => simpa [hpg] using h1
          | some sp => cases hl : loadOk sp <;> simpa [hpg, hl] using h1
        · simp only [LoadImageSeries.load_image, Bool.true_eq_false, if_false, hmp]
          cases hpg : pyGet (LoadImageSeries.matchedImages globMatches)
              (pyRandint0 seed (LoadImageSeries.matchedImages globMatches).length) with
          | none => simp only [hpg]
          | some sp =>
            simp only [hpg]
            cases loadOk sp <;> rfl

/-- C4 witness: a concrete two-label dictionary; the invocation with label
`"A"` leaves label `"B"` alone, and a dictionary differing only away from
`"A"` produces the same output tuple. -/
theorem C4_label_isolation_witness :
    dictLookup (LoadImageSeries.load_image [("A", 0), ("B", 7)] .single_image true
        ["a.png", "b.png"] 0 0 "A" false (fun _ => true)).counters "B" =
      dictLookup [("A", 0), ("B", 7)] "B" ∧
    (LoadImageSeries.load_image [("A", 0), ("B", 9)] .single_image true
        ["a.png", "b.png"] 0 0 "A" false (fun _ => true)).out =
      (LoadImageSeries.load_image [("A", 0), ("B", 7)] .single_image true
        ["a.png", "b.png"] 0 0 "A" false (fun _ => true)).out :=
  C4_label_isolation [("A", 0), ("B", 7)] [("A", 0), ("B", 9)] .single_image true
    ["a.png", "b.png"] 0 0 "A" false (fun _ => true) "B" (by decide) (by decide)

theorem pyGet_bounds {α : Type} (l : List α) (i : Int)
    (h0 : 0 ≤ i) (h1 : i < (l.length : Int)) : ∃ x, pyGet l i = some x := by
  unfold pyGet
  have hnot : ¬ i < 0 := by omega
  simp only [hnot, if_false, h0, if_true]
  have hlt : i.toNat < l.length := by omega
  exact ⟨l.get ⟨i.toNat, hlt⟩, List.get?_eq_get hlt⟩

theorem pyRandint0_bounds (seedVal : Int) (n : Nat) (hn : 0 < n) :
    0 ≤ pyRandint0 seedVal n ∧ pyRandint0 seedVal n < (n : Int) := by
  unfold pyRandint0
  constructor
  · exact Int.emod_nonneg seedVal (by exact_mod_cast hn.ne')
  · exact Int.emod_lt_of_pos seedVal (by exact_mod_cast hn)

/-- C5: in `random` mode with `reset = False`, `LoadImageSeries.load_image`
is a pure function of the seed and the matched file list: its output tuple
is the same for any two counter dictionaries (so the per-label counter is
never consulted), the counter dictionary is returned unchanged (never
advanced), and the selected `current_index` lies in `[0, n - 1]` for a
non-empty list of `n` matching images. -/
theorem C5_random_mode_deterministic_and_counter_free
    (counters countersB : List (String × Int)) (globMatches : List String)
    (index seed : Int) (label : String) (loadOk : String → Bool)
    (hne : LoadImageSeries.matchedImages globMatches ≠ []) :
    (LoadImageSeries.load_image counters .random true globMatches
        index seed label false loadOk).counters = counters ∧
    (LoadImageSeries.load_image countersB .random true globMatches
        index seed label false loadOk).out =
      (LoadImageSeries.load_image counters .random true globMatches
        index seed label false loadOk).out ∧
    ∃ img fn ci,
      (LoadImageSeries.load_image counters .random true globMatches
          index seed label false loadOk).out =
        .ok (img, fn, ci, ((LoadImageSeries.matchedImages globMatches).length : Int)) ∧
      0 ≤ ci ∧ ci < ((LoadImageSeries.matchedImages globMatches).length : Int) := by
  have hlen : 0 < (LoadImageSeries.matchedImages globMatches).length :=
    List.length_pos.mpr hne
  have hb := pyRandint0_bounds seed (LoadImageSeries.matchedImages globMatches).length hlen
  obtain ⟨sel, hsel⟩ := pyGet_bounds (LoadImageSeries.matchedImages globMatches)
    (pyRandint0 seed (LoadImageSeries.matchedImages globMatches).length) hb.1 hb.2
  refine ⟨?_, ?_, ?_⟩
  · simp only [LoadImageSeries.load_image, Bool.true_eq_false, if_false, hne, hsel]
    cases loadOk sel <;> rfl
  · simp only [LoadImageSeries.load_image, Bool.true_eq_false, if_false, hne, hsel]
    cases loadOk sel <;> rfl
  · simp only [LoadImageSeries.load_image, Bool.true_eq_false, if_false, hne, hsel]
    cases hl : loadOk sel
    · exact ⟨.zeros 1 512 512 3, "", 0, by simp [hl], le_refl 0, by exact_mod_cast hlen⟩
    · exact ⟨.file sel, pyBasename sel,
        pyRandint0 seed (LoadImageSeries.matchedImages globMatches).length,
        by simp [hl], hb.1, hb.2⟩

/-- C5 witness: two different counter dictionaries, same seed and files:
unchanged counters, identical outputs, in-range index. -/
theorem C5_random_mode_witness :
    (LoadImageSeries.load_image [("S", 5)] .random true ["a.png", "b.png", "c.png"]
        0 7 "S" false (fun _ => true)).counters = [("S", 5)] ∧
    (LoadImageSeries.load_image [] .random true ["a.png", "b.png", "c.png"]
        0 7 "S" false (fun _ => true)).out =
      (LoadImageSeries.load_image [("S", 5)] .random true ["a.png", "b.png", "c.png"]
        0 7 "S" false (fun _ => true)).out ∧
    ∃ img fn ci,
      (LoadImageSeries.load_image [("S", 5)] .random true ["a.png", "b.png", "c.png"]
          0 7 "S" false (fun _ => true)).out =
        .ok (img, fn, ci,
          ((LoadImageSeries.matchedImages ["a.png", "b.png", "c.png"]).length : Int)) ∧
      0 ≤ ci ∧ ci < ((LoadImageSeries.matchedImages ["a.png", "b.png", "c.png"]).length : Int) :=
  C5_random_mode_deterministic_and_counter_free [("S", 5)] []
    ["a.png", "b.png", "c.png"] 0 7 "S" (fun _ => true) (by decide)

/-- C1 counterexample: the claim fails on both loaders.  For
`LoadImageSeries`, a first call with `index = -1` (no stored counter)
returns `current_index = -1`, outside `[0, n - 1]` (Python's negative
indexing silently selects the last file).  For `Load2x2GridSeries` with
one matching image (`n = 1`), a stored counter of `2` is returned as
`current_index = 2 > n - 1` and the stored counter becomes `3`, not
`(2 + 1) mod n = 0`: the 2x2 node cycles over `4 * n` grid cells, not
`n` images. -/
theorem C1_counterexample :
    ((LoadImageSeries.load_image [] .single_image true ["b.png", "a.png"] (-1) 0 "L"
        false (fun _ => true)).out =
      .ok (.file "b.png", "b.png", -1, 2) ∧
      ¬ (0 ≤ (-1 : Int))) ∧
    ((Load2x2GridSeries.load_image [("G", 2)] .single_image true ["a.png"] 0 0 "G"
        false 0 (fun _ => true) (fun _ => (100, 80))).out =
      .ok (.cell "a.png" 0 40 50 80, "a.png", 2, 4, 2, "bottom-left") ∧
      dictLookup (Load2x2GridSeries.load_image [("G", 2)] .single_image true ["a.png"]
        0 0 "G" false 0 (fun _ => true) (fun _ => (100, 80))).counters "G" = some 3 ∧
      ¬ ((2 : Int) ≤ 1 - 1) ∧ (3 : Int) ≠ (2 + 1) % 1) := by decide

theorem wrap_bounds (s n : Int) (hs : 0 ≤ s) (hn : 0 < n) :
    0 ≤ (if s ≥ n then 0 else s) ∧ (if s ≥ n then 0 else s) < n := by
  by_cases h : s ≥ n <;> simp [h] <;> omega

theorem counterStart_nonneg (counters : List (String × Int)) (label : String)
    (index : Int) (reset : Bool)
    (hcnt : ∀ v : Int, dictLookup counters label = some v → 0 ≤ v)
    (hidx : 0 ≤ index) :
    0 ≤ dictGet (if reset then dictSet counters label 0 else counters) label index := by
  cases reset with
  | false =>
    simp only [Bool.false_eq_true, if_false, dictGet]
    cases hdl : dictLookup counters label with
    | none => simpa using hidx
    | some v => simpa using hcnt v hdl
  | true => simp [dictGet, dictLookup_dictSet_self]

/-- C1 amended: in `single_image` mode with a non-empty list of `n`
matching images, provided every stored counter value is non-negative, the
`index` input is non-negative, and image files load successfully, the
claimed invariant holds over the length `L` of the cycled sequence —
`L = n` for `LoadImageSeries` but `L = 4 * n` grid cells for
`Load2x2GridSeries`: the returned `current_index` lies in `[0, L - 1]`
and the stored counter afterwards equals `(current_index + 1) mod L`,
hence the stored counter itself stays in `[0, L - 1]`. -/
theorem C1_amended_counter_invariant
    (counters : List (String × Int)) (globMatches : List String)
    (index seed : Int) (label : String) (reset : Bool)
    (separator_width : Int) (loadOk : String → Bool) (dims : String → Nat × Nat)
    (hcnt : ∀ v : Int, dictLookup counters label = some v → 0 ≤ v)
    (hidx : 0 ≤ index)
    (hload : ∀ p : String, loadOk p = true)
    (hne : LoadImageSeries.matchedImages globMatches ≠ []) :
    (∃ sel ci,
      (LoadImageSeries.load_image counters .single_image true globMatches
          index seed label reset loadOk).out =
        .ok (.file sel, pyBasename sel, ci,
          ((LoadImageSeries.matchedImages globMatches).length : Int)) ∧
      0 ≤ ci ∧ ci < ((LoadImageSeries.matchedImages globMatches).length : Int) ∧
      dictLookup (LoadImageSeries.load_image counters .single_image true globMatches
          index seed label reset loadOk).counters label =
        some ((ci + 1) % ((LoadImageSeries.matchedImages globMatches).length : Int)) ∧
      0 ≤ (ci + 1) % ((LoadImageSeries.matchedImages globMatches).length : Int) ∧
      (ci + 1) % ((LoadImageSeries.matchedImages globMatches).length : Int) <
        ((LoadImageSeries.matchedImages globMatches).length : Int)) ∧
    (∃ img fn ci gp pn,
      (Load2x2GridSeries.load_image counters .single_image true globMatches
          index seed label reset separator_width loadOk dims).out =
        .ok (img, fn, ci,
          ((LoadImageSeries.matchedImages globMatches).length : Int) * 4, gp, pn) ∧
      0 ≤ ci ∧ ci < ((LoadImageSeries.matchedImages globMatches).length : Int) * 4 ∧
      dictLookup (Load2x2GridSeries.load_image counters .single_image true globMatches
          index seed label reset separator_width loadOk dims).counters label =
        some ((ci + 1) % (((LoadImageSeries.matchedImages globMatches).length : Int) * 4)) ∧
      0 ≤ (ci + 1) % (((LoadImageSeries.matchedImages globMatches).length : Int) * 4) ∧
      (ci + 1) % (((LoadImageSeries.matchedImages globMatches).length : Int) * 4) <
        ((LoadImageSeries.matchedImages globMatches).length : Int) * 4) := by
  have hlen : 0 < (LoadImageSeries.matchedImages globMatches).length :=
    List.length_pos.mpr hne
  have hnpos : (0 : Int) < ((LoadImageSeries.matchedImages globMatches).length : Int) := by
    exact_mod_cast hlen
  have hstart := counterStart_nonneg counters label index reset hcnt hidx
  constructor
  · have hciB := wrap_bounds
      (dictGet (if reset then dictSet counters label 0 else counters) label index)
      ((LoadImageSeries.matchedImages globMatches).length : Int) hstart hnpos
    obtain ⟨sel, hsel⟩ := pyGet_bounds (LoadImageSeries.matchedImages globMatches)
      (if dictGet (if reset then dictSet counters label 0 else counters) label index ≥
          ((LoadImageSeries.matchedImages globMatches).length : Int)
        then 0
        else dictGet (if reset then dictSet counters label 0 else counters) label index)
      hciB.1 hciB.2
    refine ⟨sel, _, ?_, hciB.1, hciB.2, ?_, ?_, ?_⟩
    · simp only [LoadImageSeries.load_image, Bool.true_eq_false, if_false, hne, hsel,
        hload sel, if_true]
    · simp only [LoadImageSeries.load_image, Bool.true_eq_false, if_false, hne, hsel,
        hload sel, if_true]
      exact dictLookup_dictSet_self _ _ _
    · exact Int.emod_nonneg _ (by omega)
    · exact Int.emod_lt_of_pos _ hnpos
  · have hn4 : (0 : Int) < ((LoadImageSeries.matchedImages globMatches).length : Int) * 4 := by
      omega
    have hciB := wrap_bounds
      (dictGet (if reset then dictSet counters label 0 else counters) label index)
      (((LoadImageSeries.matchedImages globMatches).length : Int) * 4) hstart hn4
    have hfd : 0 ≤ (if dictGet (if reset then dictSet counters label 0 else counters)
          label index ≥ ((LoadImageSeries.matchedImages globMatches).length : Int) * 4
        then 0
        else dictGet (if reset then dictSet counters label 0 else counters) label index) / 4 ∧
        (if dictGet (if reset then dictSet counters label 0 else counters)
          label index ≥ ((LoadImageSeries.matchedImages globMatches).length : Int) * 4
        then 0
        else dictGet (if reset then dictSet counters label 0 else counters) label index) / 4 <
        ((LoadImageSeries.matchedImages globMatches).length : Int) := by
      obtain ⟨h1, h2⟩ := hciB
      omega
    obtain ⟨sel, hsel⟩ := pyGet_bounds (LoadImageSeries.matchedImages globMatches)
      ((if dictGet (if reset then dictSet counters label 0 else counters) label index ≥
          ((LoadImageSeries.matchedImages globMatches).length : Int) * 4
        then 0
        else dictGet (if reset then dictSet counters label 0 else counters) label index) / 4)
      hfd.1 hfd.2
    simp only [Load2x2GridSeries.load_image, Bool.true_eq_false, if_false, hne, hsel,
      hload sel, if_true]
    exact ⟨_, _, _, _, _, rfl, hciB.1, hciB.2, dictLookup_dictSet_self _ _ _,
      Int.emod_nonneg _ (by omega), Int.emod_lt_of_pos _ hn4⟩

/-- C1 witness: the amended invariant at a concrete input (stored counter
`1`, two matching images, all files loadable). -/
theorem C1_amended_counter_invariant_witness :
    (∃ sel ci,
      (LoadImageSeries.load_image [("L", 1)] .single_image true ["a.png", "b.png"]
          0 0 "L" false (fun _ => true)).out =
        .ok (.file sel, pyBasename sel, ci,
          ((LoadImageSeries.matchedImages ["a.png", "b.png"]).length : Int)) ∧
      0 ≤ ci ∧ ci < ((LoadImageSeries.matchedImages ["a.png", "b.png"]).length : Int) ∧
      dictLookup (LoadImageSeries.load_image [("L", 1)] .single_image true
          ["a.png", "b.png"] 0 0 "L" false (fun _ => true)).counters "L" =
        some ((ci + 1) % ((LoadImageSeries.matchedImages ["a.png", "b.png"]).length : Int)) ∧
      0 ≤ (ci + 1) % ((LoadImageSeries.matchedImages ["a.png", "b.png"]).length : Int) ∧
      (ci + 1) % ((LoadImageSeries.matchedImages ["a.png", "b.png"]).length : Int) <
        ((LoadImageSeries.matchedImages ["a.png", "b.png"]).length : Int)) ∧
    (∃ img fn ci gp pn,
      (Load2x2GridSeries.load_image [("L", 1)] .single_image true ["a.png", "b.png"]
          0 0 "L" false 0 (fun _ => true) (fun _ => (64, 64))).out =
        .ok (img, fn, ci,
          ((LoadImageSeries.matchedImages ["a.png", "b.png"]).length : Int) * 4, gp, pn) ∧
      0 ≤ ci ∧ ci < ((LoadImageSeries.matchedImages ["a.png", "b.png"]).length : Int) * 4 ∧
      dictLookup (Load2x2GridSeries.load_image [("L", 1)] .single_image true
          ["a.png", "b.png"] 0 0 "L" false 0 (fun _ => true) (fun _ => (64, 64))).counters "L" =
        some ((ci + 1) %
          (((LoadImageSeries.matchedImages ["a.png", "b.png"]).length : Int) * 4)) ∧
      0 ≤ (ci + 1) % (((LoadImageSeries.matchedImages ["a.png", "b.png"]).length : Int) * 4) ∧
      (ci + 1) % (((LoadImageSeries.matchedImages ["a.png", "b.png"]).length : Int) * 4) <
        ((LoadImageSeries.matchedImages ["a.png", "b.png"]).length : Int) * 4) :=
  C1_amended_counter_invariant [("L", 1)] ["a.png", "b.png"] 0 0 "L" false 0
    (fun _ => true) (fun _ => (64, 64))
    (by intro v hv; simp [dictLookup] at hv; omega)
    (le_refl 0) (fun _ => rfl) (by decide)

/-! ## SaveImagePassthrough (src/save_image_passthrough.py) -/

namespace SaveImagePassthrough

/-- Result tuple of the host's `folder_paths.get_save_image_path` (the
external host collaborator; its behaviour enters the model as an input
function): output folder, base filename, running counter, subfolder, and
the normalised prefix. -/
structure SavePathInfo where
  full_output_folder : String
  filename : String
  counter : Nat
  subfolder : String
  prefixOut : String
deriving DecidableEq

/-- The dict returned by `save_images`: the `"ui"` images list (filename,
subfolder, type) and the `"result"` pair — the passthrough images and the
first saved path — plus the list of file paths written.  Pixel encoding
(`255 * clip`) and PNG metadata affect only the bytes on disk, never the
returned value, and are not modelled. -/
structure SaveOut (α : Type) where
  ui_images : List (String × String × String)
  result_images : α
  result_path : String
  saved_paths : List String
deriving DecidableEq

/-- The `for (batch_number, image) in enumerate(images)` loop: each frame
yields a file name from the host `filename` with `%batch_num%` replaced
and the zero-padded counter appended; the counter increments per frame.
Only the frame count drives the loop — frame pixels never influence the
names (`os.path.join` is modelled with a forward slash). -/
def saveLoop (fname folder subfolder : String) :
    Nat → Nat → Nat → List (String × String × String) × List String
  | _, _, 0 => ([], [])
  | batch_number, counter, k + 1 =>
    let fwb := pyReplace fname "%batch_num%" (toString batch_number)
    let file := fwb ++ "_" ++ pad5 counter ++ "_.png"
    let filepath := folder ++ "/" ++ file
    let rest := saveLoop fname folder subfolder (batch_number + 1) (counter + 1) k
    ((file, subfolder, "output") :: rest.1, filepath :: rest.2)

/-- `SaveImagePassthrough.save_images`: appends `prefix_append` to the
prefix, asks the host for the save path (passing `images[0].shape[1]` and
`images[0].shape[0]`, so an empty batch raises `IndexError`, modelled as
`Except.error`), runs the save loop, and returns the UI records together
with `result = (images, saved_paths[0] or "")`.  `frameShape f` is the
tensor shape `(shape0, shape1)` of frame `f`; `prompt` and
`extra_pnginfo` only feed the PNG metadata written to disk. -/
def save_images {α : Type} (images : List α) (prefixStr prefix_append : String)
    (frameShape : α → Nat × Nat)
    (getSavePath : String → Nat → Nat → SavePathInfo)
    (prompt : Option String) (extra_pnginfo : Option (List (String × String))) :
    Except Unit (SaveOut (List α)) :=
  match images with
  | [] => .error ()
  | img0 :: _ =>
    let fp := prefixStr ++ prefix_append
    let sp := getSavePath fp (frameShape img0).2 (frameShape img0).1
    let pair := saveLoop sp.filename sp.full_output_folder sp.subfolder 0 sp.counter
      images.length
    .ok ⟨pair.1, images, pair.2.headD "", pair.2⟩

end SaveImagePassthrough

/-- C6: `save_images` is save-and-passthrough: whenever it returns (any
non-empty batch), the images component of its `result` tuple is exactly
the input images value, unchanged, regardless of the saving side
effects. -/
theorem C6_save_images_passthrough {α : Type} (images : List α)
    (prefixStr prefix_append : String) (frameShape : α → Nat × Nat)
    (getSavePath : String → Nat → Nat → SaveImagePassthrough.SavePathInfo)
    (prompt : Option String) (extra_pnginfo : Option (List (String × String)))
    (r : SaveImagePassthrough.SaveOut (List α))
    (h : SaveImagePassthrough.save_images images prefixStr prefix_append frameShape
        getSavePath prompt extra_pnginfo = .ok r) :
    r.result_images = images := by
  cases images with
  | nil => exact absurd h (by simp [SaveImagePassthrough.save_images])
  | cons a rest =>
    simp only [SaveImagePassthrough.save_images] at h
    rw [← Except.ok.inj h]

/-- C6 witness: a singleton batch through a concrete host path. -/
theorem C6_save_images_passthrough_witness :
    ({ ui_images := [("img_00000_.png", "", "output")], result_images := [7],
        result_path := "out/img_00000_.png", saved_paths := ["out/img_00000_.png"] } :
      SaveImagePassthrough.SaveOut (List Nat)).result_images = [7] :=
  C6_save_images_passthrough [7] "p" "" (fun _ => (8, 8))
    (fun _ _ _ => ⟨"out", "img", 0, "", "p"⟩) none none _ (by decide)

/-! ## ExtractGridPanel (src/extract_grid_panel.py) -/

namespace ExtractGridPanel

/-- Python `round()`: nearest integer, ties to even.  The source computes
cell sizes in binary floating point; the model uses exact rationals,
which agrees except when a float rounding error straddles a tie — the
error paths settled by C9 return before any of this arithmetic runs. -/
def pyRound (q : Rat) : Int :=
  if q - q.floor < 1/2 then q.floor
  else if q - q.floor > 1/2 then q.floor + 1
  else if q.floor % 2 = 0 then q.floor else q.floor + 1

/-- The IMAGE output: the input tensor returned unchanged, or the crop of
it by the computed box. -/
inductive PanelOut where
  | orig
  | cropped (left top right bottom : Int)
deriving DecidableEq

/-- `ExtractGridPanel.extract_panel` on an input image tensor of PIL size
`wImg x hImg` (only the size of the input can influence the returned
numbers; the pixel payload of the crop stays symbolic in `PanelOut`).
`Char.isAlpha`/`Char.isDigit` are the ASCII fragments of Python's
Unicode-aware classifiers; a non-ASCII letter merely moves the failure to
a different error branch with the same returned tuple.  The returned
panel width/height are the PIL crop size `(right - left, bottom - top)`
clamped at zero. -/
def extract_panel (wImg hImg : Nat) (rows columns : Int) (panel : String)
    (separator_width : Int) : PanelOut × String × Int × Int :=
  let p := pyLower (pyStrip panel)
  if p.length < 2 then (.orig, p, 0, 0)
  else
    let col_letter := p.toList.takeWhile Char.isAlpha
    let row_str := p.toList.dropWhile Char.isAlpha
    if col_letter = [] ∨ row_str = [] then (.orig, p, 0, 0)
    else
      match pyInt (String.mk row_str) with
      | none => (.orig, p, 0, 0)
      | some rowNum =>
        let col_idx : Int := ((col_letter.getLastD 'a').toNat : Int) - (('a').toNat : Int)
        let row_idx : Int := rowNum - 1
        if row_idx < 0 ∨ row_idx ≥ rows then (.orig, p, 0, 0)
        else if col_idx < 0 ∨ col_idx ≥ columns then (.orig, p, 0, 0)
        else
          let total_sep_width := separator_width * (columns - 1)
          let total_sep_height := separator_width * (rows - 1)
          let cell_width : Rat := ((((wImg : Int) - total_sep_width) : Int) : Rat) / ((columns : Int) : Rat)
          let cell_height : Rat := ((((hImg : Int) - total_sep_height) : Int) : Rat) / ((rows : Int) : Rat)
          let left := pyRound ((col_idx : Rat) * cell_width + (((col_idx * separator_width) : Int) : Rat))
          let top := pyRound ((row_idx : Rat) * cell_height + (((row_idx * separator_width) : Int) : Rat))
          let right := pyRound ((left : Rat) + cell_width)
          let bottom := pyRound ((top : Rat) + cell_height)
          let right2 := min right (wImg : Int)
          let bottom2 := min bottom (hImg : Int)
          (.cropped left top right2 bottom2, pyUpper p,
            max 0 (right2 - left), max 0 (bottom2 - top))

end ExtractGridPanel

/-- C9: for every panel string that is malformed after stripping and
lowercasing — shorter than 2 characters, missing the letter or the digit
part, or with a row that `int()` rejects — or whose parsed row/column
index falls outside the `rows x columns` grid, `extract_panel` returns
the input image unchanged with width `0` and height `0`; no branch
raises. -/
theorem C9_invalid_panel_returns_input (wImg hImg : Nat) (rows columns : Int)
    (panel : String) (separator_width : Int)
    (h :
      (pyLower (pyStrip panel)).length < 2 ∨
      (pyLower (pyStrip panel)).toList.takeWhile Char.isAlpha = [] ∨
      (pyLower (pyStrip panel)).toList.dropWhile Char.isAlpha = [] ∨
      pyInt (String.mk ((pyLower (pyStrip panel)).toList.dropWhile Char.isAlpha)) = none ∨
      (∀ rowNum : Int,
        pyInt (String.mk ((pyLower (pyStrip panel)).toList.dropWhile Char.isAlpha)) =
            some rowNum →
          rowNum - 1 < 0 ∨ rowNum - 1 ≥ rows ∨
          ((((pyLower (pyStrip panel)).toList.takeWhile Char.isAlpha).getLastD 'a').toNat : Int) -
            (('a').toNat : Int) < 0 ∨
          ((((pyLower (pyStrip panel)).toList.takeWhile Char.isAlpha).getLastD 'a').toNat : Int) -
            (('a').toNat : Int) ≥ columns)) :
    ExtractGridPanel.extract_panel wImg hImg rows columns panel separator_width =
      (.orig, pyLower (pyStrip panel), 0, 0) := by
  simp only [ExtractGridPanel.extract_panel]
  by_cases h1 : (pyLower (pyStrip panel)).length < 2
  · rw [if_pos h1]
  rw [if_neg h1]
  by_cases h2 : (pyLower (pyStrip panel)).toList.takeWhile Char.isAlpha = [] ∨
      (pyLower (pyStrip panel)).toList.dropWhile Char.isAlpha = []
  · rw [if_pos h2]
  rw [if_neg h2]
  cases hint : pyInt (String.mk ((pyLower (pyStrip panel)).toList.dropWhile Char.isAlpha)) with
  | none => simp only [hint]
  | some rowNum =>
    simp only [hint]
    by_cases h3 : rowNum - 1 < 0 ∨ rowNum - 1 ≥ rows
    · rw [if_pos h3]
    rw [if_neg h3]
    by_cases h4 : ((((pyLower (pyStrip panel)).toList.takeWhile Char.isAlpha).getLastD
          'a').toNat : Int) - (('a').toNat : Int) < 0 ∨
        ((((pyLower (pyStrip panel)).toList.takeWhile Char.isAlpha).getLastD
          'a').toNat : Int) - (('a').toNat : Int) ≥ columns
    · rw [if_pos h4]
    exfalso
    rcases h with h | h | h | h | h
    · exact h1 h
    · exact h2 (Or.inl h)
    · exact h2 (Or.inr h)
    · rw [hint] at h; exact Option.noConfusion h
    · rcases h rowNum hint with hh | hh | hh | hh
      · exact h3 (Or.inl hh)
      · exact h3 (Or.inr hh)
      · exact h4 (Or.inl hh)
      · exact h4 (Or.inr hh)

/-- C9 witness: the panel string `"ab"` has no digit part, so the input
image comes back unchanged with width and height `0`. -/
theorem C9_invalid_panel_witness :
    ExtractGridPanel.extract_panel 100 100 2 2 "ab" 0 =
      (.orig, pyLower (pyStrip "ab"), 0, 0) :=
  C9_invalid_panel_returns_input 100 100 2 2 "ab" 0
    (Or.inr (Or.inr (Or.inl (by decide))))
